import Mathlib

/- Lean model of `src/http_server.c`, a minimal static-file HTTP/1.1 server.
   The pure request-handling core is embedded: request-line parsing
   (`sscanf "%s %s %s"`), MIME resolution (`get_content_type`), response
   framing (`send_response`), file loading (`send_file`) over an explicit
   filesystem oracle, and routing (`handle_request`).  Socket plumbing
   (`main`'s accept loop) is outside the embedded core. -/

/-- Whitespace as recognized by `sscanf` `%s` (C `isspace` in the default
locale): space, tab, newline, vertical tab, form feed, carriage return. -/
def isWS (c : Char) : Bool :=
  c == ' ' || c == '\t' || c == '\n' || c == Char.ofNat 11 || c == Char.ofNat 12 || c == '\r'

/-- One `%s` conversion of `sscanf`: skip whitespace, then read the maximal
run of non-whitespace characters.  Returns the token and the remaining
input. -/
def scanToken (cs : List Char) : List Char × List Char :=
  ((cs.dropWhile isWS).takeWhile (fun c => !isWS c),
   (cs.dropWhile isWS).dropWhile (fun c => !isWS c))

/-- The three fields `handle_request` scans out of the request buffer
(`char method[16]; char path[256]; char protocol[16];`). -/
structure Request where
  method : String
  path : String
  protocol : String
deriving DecidableEq

/-- `sscanf(request, "%s %s %s", method, path, protocol)`: the first three
whitespace-delimited tokens of the buffer.  When fewer than three tokens
are present the C code goes on to read uninitialized stack buffers
(indeterminate values), modelled here as `none`. -/
def parse_request (request : String) : Option Request :=
  match scanToken request.data with
  | ([], _) => none
  | (m, r1) =>
    match scanToken r1 with
    | ([], _) => none
    | (p, r2) =>
      match scanToken r2 with
      | ([], _) => none
      | (v, _) => some ⟨String.mk m, String.mk p, String.mk v⟩

/-- Suffix of a character list starting at the last `'.'`, if any
(C `strrchr(filepath, '.')` returns a pointer to the last dot, so the
string seen from it is the extension including the dot). -/
def suffixFromLastDot : List Char → Option (List Char)
  | [] => none
  | c :: cs =>
    match suffixFromLastDot cs with
    | some s => some s
    | none => if c = '.' then some (c :: cs) else none

/-- `get_content_type` from the source: MIME type inferred from the file
extension, defaulting to `text/plain`. -/
def get_content_type (filepath : String) : String :=
  match suffixFromLastDot filepath.data with
  | none => "text/plain"
  | some ext =>
    let dot := String.mk ext
    if dot = ".html" then "text/html"
    else if dot = ".css" then "text/css"
    else if dot = ".js" then "application/javascript"
    else if dot = ".json" then "application/json"
    else if dot = ".png" then "image/png"
    else if dot = ".jpg" then "image/jpeg"
    else if dot = ".jpeg" then "image/jpeg"
    else if dot = ".gif" then "image/gif"
    else if dot = ".svg" then "image/svg+xml"
    else "text/plain"

/-- The argument tuple of one `send_response` call: status code, status
text, content type, body buffer, and the byte count passed alongside. -/
structure HttpResponse where
  statusCode : Nat
  statusText : String
  contentType : String
  body : List UInt8
  bodyLength : Nat
deriving DecidableEq

/-- Bytes of the literal 404 fallback page (`not_found` in `send_file`). -/
def not_found : List UInt8 :=
  "<html><body><h1>404 Not Found</h1></body></html>".toUTF8.data.toList

/-- Bytes of the literal 500 fallback page (`error` in `send_file`). -/
def error_page : List UInt8 :=
  "<html><body><h1>500 Internal Server Error</h1></body></html>".toUTF8.data.toList

/-- Bytes of the literal 501 fallback page (`not_implemented` in
`handle_request`). -/
def not_implemented : List UInt8 :=
  "<html><body><h1>501 Not Implemented</h1></body></html>".toUTF8.data.toList

/-- The fixed 404 response `send_file` emits when `stat` fails. -/
def resp404 : HttpResponse :=
  ⟨404, "Not Found", "text/html", not_found, not_found.length⟩

/-- The fixed 500 response `send_file` emits when `fopen` or `malloc`
fails. -/
def resp500 : HttpResponse :=
  ⟨500, "Internal Server Error", "text/html", error_page, error_page.length⟩

/-- The fixed 501 response `handle_request` emits for a non-GET method. -/
def resp501 : HttpResponse :=
  ⟨501, "Not Implemented", "text/html", not_implemented, not_implemented.length⟩

/-- Bytes written to the client socket by `send_response`: one header
`write` followed by one optional body `write`. -/
structure Wire where
  header : String
  body : List UInt8
deriving DecidableEq

/-- The exact header block `send_response` builds with `snprintf`.  (The C
header buffer is 8192 bytes; every header this server builds stays far
below that bound, so `snprintf` truncation is never reached and is not
modelled.) -/
def mkHeader (status_code : Nat) (status_text content_type : String)
    (body_length : Nat) : String :=
  "HTTP/1.1 " ++ Nat.repr status_code ++ " " ++ status_text ++ "\r\n" ++
  "Content-Type: " ++ content_type ++ "\r\n" ++
  "Content-Length: " ++ Nat.repr body_length ++ "\r\n" ++
  "Connection: close\r\n" ++ "\r\n"

/-- `send_response` from the source: write the header block, then
`body_length` bytes of the body buffer when `body_length > 0`. -/
def send_response (status_code : Nat) (status_text content_type : String)
    (body : List UInt8) (body_length : Nat) : Wire :=
  ⟨mkHeader status_code status_text content_type body_length,
   if 0 < body_length then body.take body_length else []⟩

/-- Frame an `HttpResponse` through `send_response`. -/
def frame (r : HttpResponse) : Wire :=
  send_response r.statusCode r.statusText r.contentType r.body r.bodyLength

/-- Oracle for the filesystem calls `send_file` makes: `stat` (reported
size, or `none` on failure), `fopen` success, `malloc` success, and the
contents of the `malloc`ed buffer after `fread` — exactly `n` bytes, since
the allocation is `n` bytes and a short read leaves the tail of the
allocation in place. -/
structure FileSystem where
  statSize : String → Option Nat
  openOk : String → Bool
  allocOk : Nat → Bool
  readBuf : String → Nat → List UInt8
  readBuf_length : ∀ p n, (readBuf p n).length = n

/-- The response `send_file` passes to `send_response`: 404 when `stat`
fails, 500 when `fopen` or `malloc` fails, otherwise 200 OK with the bytes
read and the `stat`-reported size. -/
def send_file_response (fs : FileSystem) (filepath : String) : HttpResponse :=
  match fs.statSize filepath with
  | none => resp404
  | some size =>
    if fs.openOk filepath then
      if fs.allocOk size then
        ⟨200, "OK", get_content_type filepath, fs.readBuf filepath size, size⟩
      else resp500
    else resp500

/-- `send_file` from the source. -/
def send_file (fs : FileSystem) (filepath : String) : Wire :=
  frame (send_file_response fs filepath)

/-- Path resolution inside `handle_request`: start from `"."`, append
`"/index.html"` when the request path is exactly `"/"`, else append the
request path verbatim (`strcat`, no normalization). -/
def resolve_path (path : String) : String :=
  if path = "/" then "." ++ "/index.html" else "." ++ path

/-- The response `handle_request` emits, before framing: 501 for a non-GET
method, otherwise the `send_file` outcome on the resolved path.  `none`
when fewer than three tokens parse (the C behavior is indeterminate
there). -/
def handle_response (fs : FileSystem) (request : String) : Option HttpResponse :=
  match parse_request request with
  | none => none
  | some r =>
    if r.method ≠ "GET" then some resp501
    else some (send_file_response fs (resolve_path r.path))

/-- `handle_request` from the source: parse, route, frame. -/
def handle_request (fs : FileSystem) (request : String) : Option Wire :=
  (handle_response fs request).map frame

/-- The MIME table exactly as the spec lists it. -/
def mimeTable : List (String × String) :=
  [(".html", "text/html"), (".css", "text/css"), (".js", "application/javascript"),
   (".json", "application/json"), (".png", "image/png"), (".jpg", "image/jpeg"),
   (".jpeg", "image/jpeg"), (".gif", "image/gif"), (".svg", "image/svg+xml")]

/-- MIME resolution as the spec words it: locate the last `'.'` in the
path; if absent return the default `text/plain`; otherwise look the
substring from that `'.'` onward up in the fixed table, returning the
entry on a match and the default on no match. -/
def mime_spec (p : String) : String :=
  if '.' ∈ p.data then
    (mimeTable.lookup
      (String.mk ('.' :: (p.data.reverse.takeWhile (fun c => c != '.')).reverse))).getD
      "text/plain"
  else "text/plain"

/-- Fuel-indexed worker for `listTokens`; the fuel only bounds recursion
depth and is irrelevant as long as it is at least the list length. -/
def listTokensAux : Nat → List Char → List (List Char)
  | 0, _ => []
  | _ + 1, [] => []
  | fuel + 1, c :: cs =>
    if isWS c then listTokensAux fuel cs
    else (c :: cs.takeWhile (fun x => !isWS x)) :: listTokensAux fuel (cs.dropWhile (fun x => !isWS x))

/-- Whitespace-delimited tokens of a buffer, as the spec describes the
parser's output ("the first three whitespace-delimited tokens"). -/
def listTokens (cs : List Char) : List (List Char) :=
  listTokensAux cs.length cs

/-- Helper: once a `'.'` is in the left part, `takeWhile (· != '.')` never
reaches the right part. -/
theorem takeWhile_ne_dot_append (l1 l2 : List Char) (h : '.' ∈ l1) :
    (l1 ++ l2).takeWhile (fun c => c != '.') = l1.takeWhile (fun c => c != '.') := by
  induction l1 with
  | nil => simp at h
  | cons c cs ih =>
    by_cases hc : c = '.'
    · subst hc
      simp [List.takeWhile_cons]
    · have hmem : '.' ∈ cs := by
        rcases List.mem_cons.mp h with h1 | h1
        · exact absurd h1.symm hc
        · exact h1
      simp [List.takeWhile_cons, hc, ih hmem]

/-- Helper: `strrchr`-style last-dot suffix, computed as the spec words it
(the characters after the last dot are those before the first dot of the
reversal). -/
theorem suffixFromLastDot_eq (cs : List Char) :
    suffixFromLastDot cs =
      if '.' ∈ cs then
        some ('.' :: (cs.reverse.takeWhile (fun c => c != '.')).reverse)
      else none := by
  induction cs with
  | nil => simp [suffixFromLastDot]
  | cons c cs ih =>
    by_cases h : '.' ∈ cs
    · have hmem : '.' ∈ c :: cs := List.mem_cons_of_mem _ h
      simp only [suffixFromLastDot, ih, if_pos h, if_pos hmem]
      have ht : ((c :: cs).reverse.takeWhile (fun c => c != '.')) =
          cs.reverse.takeWhile (fun c => c != '.') := by
        rw [List.reverse_cons]
        exact takeWhile_ne_dot_append _ _ (List.mem_reverse.mpr h)
      rw [ht]
    · simp only [suffixFromLastDot, ih, if_neg h]
      by_cases hc : c = '.'
      · subst hc
        rw [if_pos rfl, if_pos (List.mem_cons_self _ _)]
        have hall : ∀ a ∈ cs.reverse, (fun c => c != '.') a = true := by
          intro a ha
          have hmem : a ∈ cs := List.mem_reverse.mp ha
          have hne : a ≠ '.' := fun he => h (he ▸ hmem)
          simpa using hne
        rw [List.reverse_cons, List.takeWhile_append_of_pos hall]
        simp
      · rw [if_neg hc]
        rw [if_neg (by
          simp only [List.mem_cons]
          rintro (h1 | h1)
          · exact hc h1.symm
          · exact h h1)]

/-- Helper: the source's if-chain of `strcmp`s agrees with lookup in the
spec's table. -/
theorem mime_chain_eq_lookup (e : String) :
    (if e = ".html" then "text/html"
     else if e = ".css" then "text/css"
     else if e = ".js" then "application/javascript"
     else if e = ".json" then "application/json"
     else if e = ".png" then "image/png"
     else if e = ".jpg" then "image/jpeg"
     else if e = ".jpeg" then "image/jpeg"
     else if e = ".gif" then "image/gif"
     else if e = ".svg" then "image/svg+xml"
     else "text/plain") = (mimeTable.lookup e).getD "text/plain" := by
  by_cases h1 : e = ".html"
  · subst h1; decide
  by_cases h2 : e = ".css"
  · subst h2; decide
  by_cases h3 : e = ".js"
  · subst h3; decide
  by_cases h4 : e = ".json"
  · subst h4; decide
  by_cases h5 : e = ".png"
  · subst h5; decide
  by_cases h6 : e = ".jpg"
  · subst h6; decide
  by_cases h7 : e = ".jpeg"
  · subst h7; decide
  by_cases h8 : e = ".gif"
  · subst h8; decide
  by_cases h9 : e = ".svg"
  · subst h9; decide
  simp [mimeTable, List.lookup, h1, h2, h3, h4, h5, h6, h7, h8, h9,
    beq_false_of_ne h1, beq_false_of_ne h2, beq_false_of_ne h3, beq_false_of_ne h4,
    beq_false_of_ne h5, beq_false_of_ne h6, beq_false_of_ne h7, beq_false_of_ne h8,
    beq_false_of_ne h9]

/-- Claim C2: the MIME Resolver returns `text/plain` when the path has no
dot, and otherwise maps the substring from the last dot onward through the
fixed extension table (case-sensitively), defaulting to `text/plain`; as a
Lean function it is total and side-effect free. -/
theorem C2_mime_resolver (p : String) : get_content_type p = mime_spec p := by
  unfold get_content_type mime_spec
  rw [suffixFromLastDot_eq]
  by_cases h : '.' ∈ p.data
  · rw [if_pos h, if_pos h]
    exact mime_chain_eq_lookup _
  · rw [if_neg h, if_neg h]

/-- Helper: `listTokensAux` ignores its fuel as long as the fuel dominates
the list length. -/
theorem listTokensAux_mono : ∀ (f1 f2 : Nat) (cs : List Char),
    cs.length ≤ f1 → cs.length ≤ f2 → listTokensAux f1 cs = listTokensAux f2 cs
  | 0, f2, cs, h1, _ => by
    have hnil : cs = [] := List.length_eq_zero.mp (Nat.le_zero.mp h1)
    subst hnil
    cases f2 <;> rfl
  | _ + 1, f2, [], _, _ => by cases f2 <;> rfl
  | _ + 1, 0, c :: cs, _, h2 => by simp at h2
  | f1 + 1, f2 + 1, c :: cs, h1, h2 => by
    have h1' : cs.length ≤ f1 := by simp at h1; omega
    have h2' : cs.length ≤ f2 := by simp at h2; omega
    simp only [listTokensAux]
    by_cases hw : isWS c
    · rw [if_pos hw, if_pos hw]
      exact listTokensAux_mono f1 f2 cs h1' h2'
    · rw [if_neg hw, if_neg hw]
      congr 1
      exact listTokensAux_mono f1 f2 _
        (Nat.le_trans (List.dropWhile_suffix _).length_le h1')
        (Nat.le_trans (List.dropWhile_suffix _).length_le h2')

/-- Helper: the spec's tokenizer steps exactly as one `sscanf` `%s`
conversion followed by tokenizing the rest. -/
theorem listTokens_eq_scan (cs : List Char) :
    listTokens cs =
      if (scanToken cs).1 = [] then []
      else (scanToken cs).1 :: listTokens (scanToken cs).2 := by
  induction cs with
  | nil => rfl
  | cons c cs ih =>
    by_cases hw : isWS c
    · have hstep : listTokens (c :: cs) = listTokens cs := by
        show listTokensAux (cs.length + 1) (c :: cs) = listTokensAux cs.length cs
        simp only [listTokensAux, if_pos hw]
      have hscan : scanToken (c :: cs) = scanToken cs := by
        simp [scanToken, List.dropWhile_cons, hw]
      rw [hstep, hscan, ih]
    · have h1 : (c :: cs).dropWhile isWS = c :: cs := List.dropWhile_cons_of_neg hw
      have htok : (scanToken (c :: cs)).1 = c :: cs.takeWhile (fun x => !isWS x) := by
        simp [scanToken, h1, List.takeWhile_cons, hw]
      have hrest : (scanToken (c :: cs)).2 = cs.dropWhile (fun x => !isWS x) := by
        simp [scanToken, h1, List.dropWhile_cons, hw]
      rw [htok, hrest, if_neg (List.cons_ne_nil _ _)]
      show listTokensAux ((c :: cs).length) (c :: cs) = _
      simp only [List.length_cons, listTokensAux, if_neg hw]
      congr 1
      exact listTokensAux_mono _ _ _ (List.dropWhile_suffix _).length_le (Nat.le_refl _)

/-- Helper: peel one token off a `listTokens` equation. -/
theorem listTokens_cons_elim (cs t : List Char) (ts : List (List Char))
    (h : listTokens cs = t :: ts) :
    ∃ r, scanToken cs = (t, r) ∧ t ≠ [] ∧ listTokens r = ts := by
  rw [listTokens_eq_scan] at h
  by_cases he : (scanToken cs).1 = []
  · rw [if_pos he] at h
    exact absurd h (by simp)
  · rw [if_neg he] at h
    have h1 := (List.cons.injEq _ _ _ _).mp h
    refine ⟨(scanToken cs).2, ?_, h1.1 ▸ he, h1.2⟩
    rw [← h1.1]

/-- Claim C8: when the buffer has at least three whitespace-delimited
tokens whose byte lengths fit the reference field bounds (method ≤ 16,
target ≤ 256, version ≤ 16), the parser returns exactly the first, second
and third tokens as method, target and version, with no further
validation or normalization. -/
theorem C8_parser_first_three_tokens (buf : String) (m t v : List Char)
    (rest : List (List Char))
    (h : listTokens buf.data = m :: t :: v :: rest)
    (hm : (String.mk m).utf8ByteSize ≤ 16)
    (ht : (String.mk t).utf8ByteSize ≤ 256)
    (hv : (String.mk v).utf8ByteSize ≤ 16) :
    parse_request buf = some ⟨String.mk m, String.mk t, String.mk v⟩ := by
  obtain ⟨r1, hs1, hne1, h2⟩ := listTokens_cons_elim _ _ _ h
  obtain ⟨r2, hs2, hne2, h3⟩ := listTokens_cons_elim _ _ _ h2
  obtain ⟨r3, hs3, hne3, -⟩ := listTokens_cons_elim _ _ _ h3
  obtain ⟨a1, as1, rfl⟩ := List.exists_cons_of_ne_nil hne1
  obtain ⟨a2, as2, rfl⟩ := List.exists_cons_of_ne_nil hne2
  obtain ⟨a3, as3, rfl⟩ := List.exists_cons_of_ne_nil hne3
  simp only [parse_request, hs1, hs2, hs3]

/-- Witness for claim C8: a concrete well-formed request line parses into
its three tokens. -/
theorem C8_witness :
    parse_request "GET /index.html HTTP/1.1" =
      some ⟨String.mk "GET".data, String.mk "/index.html".data, String.mk "HTTP/1.1".data⟩ :=
  C8_parser_first_three_tokens "GET /index.html HTTP/1.1" "GET".data "/index.html".data
    "HTTP/1.1".data [] (by decide) (by decide) (by decide) (by decide)

/-- Two demo content bytes ("hi") for witness filesystems. -/
def demoBytes : List UInt8 := [104, 105]

/-- A small concrete filesystem oracle for witnesses: `./missing.html`
fails `stat`, `./locked.html` fails `fopen`, `./empty.bin` is an empty
file, and every other path is a two-byte file holding `demoBytes`. -/
def fsMixed : FileSystem where
  statSize p :=
    if p = "./missing.html" then none else if p = "./empty.bin" then some 0 else some 2
  openOk p := p != "./locked.html"
  allocOk _ := true
  readBuf _ n := demoBytes.take n ++ List.replicate (n - 2) 0
  readBuf_length := by
    intro p n
    simp [demoBytes]
    omega

/-- Claim C1: for every resolved path, the File Loader pipeline produces
exactly one of three responses: 404 with the literal fallback body and
`text/html` when `stat` fails; 500 with the literal fallback body and
`text/html` when `stat` succeeded but `fopen` or the buffer allocation
failed; otherwise 200 OK whose body is the bytes read from the file and
whose content type is the MIME Resolver applied to the path. -/
theorem C1_loader_response_taxonomy (fs : FileSystem) (p : String) :
    (fs.statSize p = none → send_file_response fs p = resp404)
    ∧ (∀ n, fs.statSize p = some n → (fs.openOk p = false ∨ fs.allocOk n = false) →
        send_file_response fs p = resp500)
    ∧ (∀ n, fs.statSize p = some n → fs.openOk p = true → fs.allocOk n = true →
        send_file_response fs p = ⟨200, "OK", get_content_type p, fs.readBuf p n, n⟩) := by
  refine ⟨?_, ?_, ?_⟩
  · intro h
    simp [send_file_response, h]
  · rintro n h (ho | ha)
    · simp [send_file_response, h, ho]
    · by_cases ho : fs.openOk p
      · simp [send_file_response, h, ho, ha]
      · simp [send_file_response, h, ho]
  · intro n h ho ha
    simp [send_file_response, h, ho, ha]

/-- Witness for claim C1: all three loader outcomes on the concrete
filesystem. -/
theorem C1_witness :
    send_file_response fsMixed "./missing.html" = resp404
    ∧ send_file_response fsMixed "./locked.html" = resp500
    ∧ send_file_response fsMixed "./page.html" =
        ⟨200, "OK", get_content_type "./page.html", fsMixed.readBuf "./page.html" 2, 2⟩ :=
  ⟨(C1_loader_response_taxonomy fsMixed "./missing.html").1 (by decide),
   (C1_loader_response_taxonomy fsMixed "./locked.html").2.1 2 (by decide)
     (Or.inl (by decide)),
   (C1_loader_response_taxonomy fsMixed "./page.html").2.2 2 (by decide) (by decide)
     (by decide)⟩

/-- Claim C4: every parsed request whose method is not exactly "GET"
yields the fixed 501 response (literal body, `text/html`) regardless of
target, and independently of the filesystem — no path resolution and no
file access happen (the right-hand sides do not mention `fs`). -/
theorem C4_non_get_yields_501 (fs : FileSystem) (request : String) (r : Request)
    (hp : parse_request request = some r) (hm : r.method ≠ "GET") :
    handle_response fs request = some resp501
    ∧ handle_request fs request = some (send_response 501 "Not Implemented" "text/html"
        not_implemented not_implemented.length) := by
  have h1 : handle_response fs request = some resp501 := by
    simp [handle_response, hp, hm]
  refine ⟨h1, ?_⟩
  simp [handle_request, h1, frame, resp501]

/-- Witness for claim C4: a concrete POST request gets the 501 response. -/
theorem C4_witness :
    handle_response fsMixed "POST /anything HTTP/1.1" = some resp501
    ∧ handle_request fsMixed "POST /anything HTTP/1.1" = some (send_response 501
        "Not Implemented" "text/html" not_implemented not_implemented.length) :=
  C4_non_get_yields_501 fsMixed "POST /anything HTTP/1.1" ⟨"POST", "/anything", "HTTP/1.1"⟩
    (by decide) (by decide)

/-- Claim C5: for every GET request the resolved filesystem path is
`"./index.html"` when the target is exactly "/", and otherwise the
document-root prefix "." with the target appended verbatim (no
normalization, no filtering of ".." segments). -/
theorem C5_path_resolution (fs : FileSystem) (request : String) (r : Request)
    (hp : parse_request request = some r) (hm : r.method = "GET") :
    handle_response fs request =
      some (send_file_response fs (if r.path = "/" then "./index.html" else "." ++ r.path)) := by
  have hne : ¬(r.method ≠ "GET") := fun hc => hc hm
  have hroot : ("." ++ "/index.html" : String) = "./index.html" := rfl
  simp only [handle_response, hp, if_neg hne, resolve_path, hroot]

/-- Witness for claim C5: the "/" target resolves to `./index.html`, and a
target with a ".." segment is appended verbatim. -/
theorem C5_witness :
    handle_response fsMixed "GET / HTTP/1.1" =
      some (send_file_response fsMixed (if "/" = "/" then "./index.html" else "." ++ "/"))
    ∧ handle_response fsMixed "GET /../secret.txt HTTP/1.1" =
      some (send_file_response fsMixed
        (if "/../secret.txt" = "/" then "./index.html" else "." ++ "/../secret.txt")) :=
  ⟨C5_path_resolution fsMixed "GET / HTTP/1.1" ⟨"GET", "/", "HTTP/1.1"⟩
     (by decide) (by decide),
   C5_path_resolution fsMixed "GET /../secret.txt HTTP/1.1"
     ⟨"GET", "/../secret.txt", "HTTP/1.1"⟩ (by decide) (by decide)⟩

/-- Helper: exhaustive case analysis of every response the router can
emit. -/
theorem handle_response_cases (fs : FileSystem) (request : String) (r : HttpResponse)
    (h : handle_response fs request = some r) :
    (∃ p n, fs.statSize p = some n ∧ fs.openOk p = true ∧ fs.allocOk n = true ∧
        r = ⟨200, "OK", get_content_type p, fs.readBuf p n, n⟩)
    ∨ r = resp404 ∨ r = resp500 ∨ r = resp501 := by
  unfold handle_response at h
  cases hp : parse_request request with
  | none =>
    simp only [hp] at h
    cases h
  | some req =>
    simp only [hp] at h
    by_cases hm : req.method = "GET"
    · rw [if_neg (fun hc => hc hm)] at h
      injection h with h
      unfold send_file_response at h
      cases hs : fs.statSize (resolve_path req.path) with
      | none =>
        simp only [hs] at h
        right; left; exact h.symm
      | some n =>
        simp only [hs] at h
        by_cases ho : fs.openOk (resolve_path req.path)
        · by_cases ha : fs.allocOk n
          · rw [if_pos ho, if_pos ha] at h
            left
            exact ⟨resolve_path req.path, n, hs, ho, ha, h.symm⟩
          · rw [if_pos ho, if_neg ha] at h
            right; right; left; exact h.symm
        · rw [if_neg ho] at h
          right; right; left; exact h.symm
    · rw [if_pos hm] at h
      injection h with h
      right; right; right; exact h.symm

/-- Helper: every response the router emits declares a `bodyLength` equal
to the length of its body buffer. -/
theorem handle_response_wf (fs : FileSystem) (request : String) (r : HttpResponse)
    (h : handle_response fs request = some r) : r.bodyLength = r.body.length := by
  rcases handle_response_cases fs request r h with ⟨p, n, -, -, -, rfl⟩ | rfl | rfl | rfl
  · exact (fs.readBuf_length p n).symm
  · rfl
  · rfl
  · rfl

/-- Helper: framing writes the body buffer exactly when the declared
length matches the buffer length. -/
theorem frame_body (r : HttpResponse) (h : r.bodyLength = r.body.length) :
    (frame r).body = r.body := by
  simp only [frame, send_response]
  by_cases h0 : 0 < r.bodyLength
  · rw [h] at h0
    rw [h, if_pos h0, List.take_length]
  · simp only [if_neg h0]
    have hlen : r.body.length = 0 := by omega
    exact (List.length_eq_zero.mp hlen).symm

/-- Claim C3: in every response the server emits, the number written after
"Content-Length: " in the header block equals the exact count of body
bytes written afterwards on the same connection. -/
theorem C3_content_length_exact (fs : FileSystem) (request : String) (w : Wire)
    (h : handle_request fs request = some w) :
    ∃ pre post, w.header =
      pre ++ ("Content-Length: " ++ (Nat.repr w.body.length ++ ("\r\n" ++ post))) := by
  unfold handle_request at h
  cases hr : handle_response fs request with
  | none =>
    simp only [hr, Option.map] at h
    cases h
  | some r =>
    rw [hr] at h
    simp only [Option.map] at h
    injection h with h
    subst h
    rw [frame_body r (handle_response_wf fs request r hr)]
    refine ⟨"HTTP/1.1 " ++ Nat.repr r.statusCode ++ " " ++ r.statusText ++ "\r\n" ++
      "Content-Type: " ++ r.contentType ++ "\r\n",
      "Connection: close\r\n" ++ "\r\n", ?_⟩
    have hwf := handle_response_wf fs request r hr
    apply String.ext
    simp [frame, send_response, mkHeader, hwf, List.append_assoc]

/-- Witness for claim C3: the concrete 404 wire for a missing file has its
body length printed in the header. -/
theorem C3_witness :
    ∃ pre post, (frame resp404).header =
      pre ++ ("Content-Length: " ++ (Nat.repr (frame resp404).body.length ++
        ("\r\n" ++ post))) :=
  C3_content_length_exact fsMixed "GET /missing.html HTTP/1.1" (frame resp404) (by decide)

/-- Claim C6: the Response Framer writes exactly the header block
"HTTP/1.1 code reason, Content-Type, Content-Length, Connection: close"
terminated by a blank line — beginning with the literal "HTTP/1.1"
regardless of the request's declared version (the framer never receives
the version) — followed by the raw body bytes only when the body length
is greater than 0. -/
theorem C6_framer_exact_format :
    (∀ (status_code : Nat) (status_text content_type : String) (body : List UInt8)
        (body_length : Nat),
      send_response status_code status_text content_type body body_length =
        ⟨"HTTP/1.1 " ++ Nat.repr status_code ++ " " ++ status_text ++ "\r\n" ++
           "Content-Type: " ++ content_type ++ "\r\n" ++
           "Content-Length: " ++ Nat.repr body_length ++ "\r\n" ++
           "Connection: close\r\n" ++ "\r\n",
         if 0 < body_length then body.take body_length else []⟩)
    ∧ (∀ (fs : FileSystem) (request : String) (w : Wire),
        handle_request fs request = some w → ∃ rest, w.header = "HTTP/1.1 " ++ rest) := by
  constructor
  · intro _ _ _ _ _
    rfl
  · intro fs request w h
    unfold handle_request at h
    cases hr : handle_response fs request with
    | none =>
      simp only [hr, Option.map] at h
      cases h
    | some r =>
      rw [hr] at h
      simp only [Option.map] at h
      injection h with h
      subst h
      refine ⟨Nat.repr r.statusCode ++ " " ++ r.statusText ++ "\r\n" ++
        "Content-Type: " ++ r.contentType ++ "\r\n" ++
        "Content-Length: " ++ Nat.repr r.bodyLength ++ "\r\n" ++
        "Connection: close\r\n" ++ "\r\n", ?_⟩
      apply String.ext
      simp [frame, send_response, mkHeader, List.append_assoc]

/-- Witness for claim C6: a concrete framing call and a concrete emitted
wire starting with the HTTP/1.1 literal. -/
theorem C6_witness :
    send_response 200 "OK" "text/html" demoBytes 2 =
      ⟨"HTTP/1.1 " ++ Nat.repr 200 ++ " " ++ "OK" ++ "\r\n" ++ "Content-Type: " ++
         "text/html" ++ "\r\n" ++ "Content-Length: " ++ Nat.repr 2 ++ "\r\n" ++
         "Connection: close\r\n" ++ "\r\n",
       if 0 < 2 then demoBytes.take 2 else []⟩
    ∧ (∃ rest, (frame resp501).header = "HTTP/1.1 " ++ rest) :=
  ⟨C6_framer_exact_format.1 200 "OK" "text/html" demoBytes 2,
   C6_framer_exact_format.2 fsMixed "POST /x HTTP/1.1" (frame resp501) (by decide)⟩

/-- Claim C7: round-trip — when a file of N bytes is stored under the
document root (any N, including 0, any byte values), a GET request for
its path yields a 200 response whose body is exactly those N bytes. -/
theorem C7_roundtrip (fs : FileSystem) (bytes : List UInt8)
    (request target version : String)
    (hp : parse_request request = some ⟨"GET", target, version⟩)
    (hstat : fs.statSize (resolve_path target) = some bytes.length)
    (hopen : fs.openOk (resolve_path target) = true)
    (halloc : fs.allocOk bytes.length = true)
    (hread : fs.readBuf (resolve_path target) bytes.length = bytes) :
    handle_request fs request =
      some ⟨mkHeader 200 "OK" (get_content_type (resolve_path target)) bytes.length,
            bytes⟩ := by
  have hresp : handle_response fs request =
      some ⟨200, "OK", get_content_type (resolve_path target), bytes, bytes.length⟩ := by
    unfold handle_response
    simp only [hp]
    rw [if_neg (fun hc => hc rfl)]
    unfold send_file_response
    simp only [hstat, hopen, halloc, hread, if_pos]
  have hbody : (if 0 < bytes.length then bytes.take bytes.length else []) = bytes := by
    by_cases h0 : 0 < bytes.length
    · rw [if_pos h0, List.take_length]
    · rw [if_neg h0]
      exact (List.length_eq_zero.mp (by omega)).symm
  unfold handle_request
  rw [hresp]
  simp only [Option.map, frame, send_response]
  rw [hbody]

/-- Witness for claim C7: the two-byte demo file and the empty file both
round-trip byte-for-byte. -/
theorem C7_witness :
    handle_request fsMixed "GET /page.html HTTP/1.1" =
      some ⟨mkHeader 200 "OK" (get_content_type (resolve_path "/page.html"))
              demoBytes.length, demoBytes⟩
    ∧ handle_request fsMixed "GET /empty.bin HTTP/1.1" =
      some ⟨mkHeader 200 "OK" (get_content_type (resolve_path "/empty.bin"))
              (List.length ([] : List UInt8)), []⟩ :=
  ⟨C7_roundtrip fsMixed demoBytes "GET /page.html HTTP/1.1" "/page.html" "HTTP/1.1"
     (by decide) (by decide) (by decide) (by decide) (by decide),
   C7_roundtrip fsMixed [] "GET /empty.bin HTTP/1.1" "/empty.bin" "HTTP/1.1"
     (by decide) (by decide) (by decide) (by decide) (by decide)⟩

/-- Claim C9: the MIME Resolver never returns the empty string, and every
response the server emits has a non-empty content type; every error
(non-200) response carries the fixed content type `text/html`. -/
theorem C9_content_type_never_empty :
    (∀ p : String, get_content_type p ≠ "")
    ∧ (∀ (fs : FileSystem) (request : String) (r : HttpResponse),
        handle_response fs request = some r →
          r.contentType ≠ "" ∧ (r.statusCode ≠ 200 → r.contentType = "text/html")) := by
  have hne : ∀ p : String, get_content_type p ≠ "" := by
    intro p
    unfold get_content_type
    cases suffixFromLastDot p.data with
    | none => decide
    | some ext =>
      show (if String.mk ext = ".html" then "text/html"
        else if String.mk ext = ".css" then "text/css"
        else if String.mk ext = ".js" then "application/javascript"
        else if String.mk ext = ".json" then "application/json"
        else if String.mk ext = ".png" then "image/png"
        else if String.mk ext = ".jpg" then "image/jpeg"
        else if String.mk ext = ".jpeg" then "image/jpeg"
        else if String.mk ext = ".gif" then "image/gif"
        else if String.mk ext = ".svg" then "image/svg+xml"
        else "text/plain") ≠ ""
      split_ifs <;> decide
  refine ⟨hne, ?_⟩
  intro fs request r h
  rcases handle_response_cases fs request r h with ⟨p, n, -, -, -, rfl⟩ | rfl | rfl | rfl
  · exact ⟨hne p, fun hc => absurd rfl hc⟩
  · exact ⟨by decide, fun _ => rfl⟩
  · exact ⟨by decide, fun _ => rfl⟩
  · exact ⟨by decide, fun _ => rfl⟩

/-- Witness for claim C9: a concrete extension-free path and the concrete
501 response. -/
theorem C9_witness :
    get_content_type "./noext" ≠ ""
    ∧ (resp501.contentType ≠ "" ∧
        (resp501.statusCode ≠ 200 → resp501.contentType = "text/html")) :=
  ⟨C9_content_type_never_empty.1 "./noext",
   C9_content_type_never_empty.2 fsMixed "POST /x HTTP/1.1" resp501 (by decide)⟩

/-- Claim C10: every response the Router emits has status code in
{200, 404, 500, 501}; each non-200 status determines the full fixed
response (reason phrase, `text/html` content type and literal HTML body);
only a 200 response carries file content. -/
theorem C10_router_reachable_responses (fs : FileSystem) (request : String)
    (r : HttpResponse) (h : handle_response fs request = some r) :
    (r.statusCode = 200 ∨ r.statusCode = 404 ∨ r.statusCode = 500 ∨ r.statusCode = 501)
    ∧ (r.statusCode = 404 → r = resp404)
    ∧ (r.statusCode = 500 → r = resp500)
    ∧ (r.statusCode = 501 → r = resp501)
    ∧ (r.statusCode = 200 → r.statusText = "OK" ∧
        ∃ p n, fs.statSize p = some n ∧ fs.openOk p = true ∧ fs.allocOk n = true ∧
          r.contentType = get_content_type p ∧ r.body = fs.readBuf p n) := by
  rcases handle_response_cases fs request r h with ⟨p, n, hs, ho, ha, rfl⟩ | rfl | rfl | rfl
  · exact ⟨Or.inl rfl, fun hc => by simp at hc, fun hc => by simp at hc,
      fun hc => by simp at hc, fun _ => ⟨rfl, p, n, hs, ho, ha, rfl, rfl⟩⟩
  · exact ⟨Or.inr (Or.inl rfl), fun _ => rfl, fun hc => absurd hc (by decide),
      fun hc => absurd hc (by decide), fun hc => absurd hc (by decide)⟩
  · exact ⟨Or.inr (Or.inr (Or.inl rfl)), fun hc => absurd hc (by decide), fun _ => rfl,
      fun hc => absurd hc (by decide), fun hc => absurd hc (by decide)⟩
  · exact ⟨Or.inr (Or.inr (Or.inr rfl)), fun hc => absurd hc (by decide),
      fun hc => absurd hc (by decide), fun _ => rfl, fun hc => absurd hc (by decide)⟩

/-- Witness for claim C10: the concrete 404 response for a missing file
satisfies the taxonomy. -/
theorem C10_witness :
    (resp404.statusCode = 200 ∨ resp404.statusCode = 404 ∨ resp404.statusCode = 500 ∨
        resp404.statusCode = 501)
    ∧ (resp404.statusCode = 404 → resp404 = resp404)
    ∧ (resp404.statusCode = 500 → resp404 = resp500)
    ∧ (resp404.statusCode = 501 → resp404 = resp501)
    ∧ (resp404.statusCode = 200 → resp404.statusText = "OK" ∧
        ∃ p n, fsMixed.statSize p = some n ∧ fsMixed.openOk p = true ∧
          fsMixed.allocOk n = true ∧ resp404.contentType = get_content_type p ∧
          resp404.body = fsMixed.readBuf p n) :=
  C10_router_reachable_responses fsMixed "GET /missing.html HTTP/1.1" resp404 (by decide)
